import Mathlib

/-!
Verification of the interrupt configuration/dispatch subsystem of
PulseSensorPlayground (`src/utility/Interrupts.h`), as a shallow embedding.

The header selects behaviour with the C preprocessor:
  * `USE_ARDUINO_INTERRUPTS` (a build switch, true/false) decides whether
    `PulseSensorPlaygroundSetupInterrupt` programs a hardware timer or is a
    no-op returning true;
  * the target architecture macros (`__AVR_ATmega328P__`, `__AVR_ATtiny85__`,
    `__arc__`, `__AVR__`, ...) and `F_CPU` select the register values written;
  * the `DISABLE_PULSE_SENSOR_INTERRUPTS` / `ENABLE_PULSE_SENSOR_INTERRUPTS`
    macros expand to `cli()` / `sei()` except on `__arc__`, where they expand
    to nothing;
  * `ISR(TIMER1_COMPA_vect)` is defined only under `#if USE_ARDUINO_INTERRUPTS`
    and `#if defined(__AVR__)`.

We model the compile-time parameters as ordinary arguments and the hardware
side effects as an explicit event trace.
-/

/-- The compile-time target platforms distinguished by `Interrupts.h`.
The first four are the AVR family sharing one branch; `avrOther` is any
other AVR target (where `__AVR__` is defined but no platform branch
matches, e.g. an ATmega2560); `arc` is the Arduino 101 (`__arc__`);
`other` is any non-AVR, non-arc target. -/
inductive Platform where
  | atmega328P
  | atmega168
  | atmega32U4
  | atmega16U4
  | attiny85
  | avrOther
  | arc
  | other
deriving DecidableEq, Repr, Fintype

/-- `defined(__AVR_ATmega328P__) || defined(__AVR_ATmega168__) ||
defined(__AVR_ATmega32U4__) || defined(__AVR_ATmega16U4__)` -/
def Platform.isATmega328Family : Platform → Bool
  | .atmega328P => true
  | .atmega168 => true
  | .atmega32U4 => true
  | .atmega16U4 => true
  | _ => false

/-- `defined(__AVR__)`: true for every AVR target. -/
def Platform.isAVR : Platform → Bool
  | .atmega328P => true
  | .atmega168 => true
  | .atmega32U4 => true
  | .atmega16U4 => true
  | .attiny85 => true
  | .avrOther => true
  | _ => false

/-- The platforms that hit one of the two supported branches of
`PulseSensorPlaygroundSetupInterrupt` (any other platform falls into the
`#else return false;` branch). -/
def Platform.isSupported (p : Platform) : Bool :=
  p.isATmega328Family || p = .attiny85

/-- The hardware registers named in `Interrupts.h`. -/
inductive Reg where
  | TCCR1A
  | TCCR1B
  | TCCR1C
  | OCR1A
  | TIMSK1
  | GTCCR
  | OCR1C
  | TCCR1
  | TIMSK
deriving DecidableEq, Repr

/-- Observable hardware actions of the subsystem, in program order:
plain register writes, read-modify-write (`&=`), `bitSet`, the
`cli()` / `sei()` instructions, and an invocation of the bound callback
target's `onSampleTime()` (identified by the target's identity). -/
inductive Event where
  | regWrite (r : Reg) (v : Nat)
  | regAnd (r : Reg) (mask : Nat)
  | bitSet (r : Reg) (bit : Nat)
  | cli
  | sei
  | callback (target : Nat)
deriving DecidableEq, Repr

/-- `DISABLE_PULSE_SENSOR_INTERRUPTS`: expands to nothing on `__arc__`
(Arduino 101 has no `cli()`), to `cli()` elsewhere. -/
def disableEvents (p : Platform) : List Event :=
  if p = .arc then [] else [Event.cli]

/-- `ENABLE_PULSE_SENSOR_INTERRUPTS`: expands to nothing on `__arc__`,
to `sei()` elsewhere. -/
def enableEvents (p : Platform) : List Event :=
  if p = .arc then [] else [Event.sei]

/-- `PulseSensorPlaygroundSetupInterrupt()` from `Interrupts.h`, with the
preprocessor conditions (`USE_ARDUINO_INTERRUPTS`, platform macros, `F_CPU`)
as arguments. Returns the `boolean` result and the trace of hardware
actions the call performs, in order.

`#if !USE_ARDUINO_INTERRUPTS` returns true at once with no hardware access.
Otherwise the ATmega328 family branch writes `TCCR1A = 0`, `TCCR1C = 0`,
then (only when `F_CPU` is 16MHz or 8MHz) `TCCR1B` and `OCR1A`, then
`TIMSK1 = 0x02`, then `ENABLE_PULSE_SENSOR_INTERRUPTS`, and returns true;
the ATtiny85 branch does `GTCCR &= 0x81`, `OCR1C = 0x7C`, `OCR1A = 0x7C`,
then (for 16MHz/8MHz) `TCCR1`, then `bitSet(TIMSK,6)`, then
`ENABLE_PULSE_SENSOR_INTERRUPTS`, and returns true; every other platform
returns false with no writes. -/
def PulseSensorPlaygroundSetupInterrupt (useArduinoInterrupts : Bool)
    (p : Platform) (fcpu : Nat) : Bool × List Event :=
  if !useArduinoInterrupts then
    (true, [])
  else if p.isATmega328Family then
    let freqWrites : List Event :=
      if fcpu = 16000000 then
        [Event.regWrite .TCCR1B 0x0C, Event.regWrite .OCR1A 0x007C]
      else if fcpu = 8000000 then
        [Event.regWrite .TCCR1B 0x0B, Event.regWrite .OCR1A 0x00F9]
      else []
    (true,
      [Event.regWrite .TCCR1A 0x00, Event.regWrite .TCCR1C 0x00]
        ++ freqWrites
        ++ [Event.regWrite .TIMSK1 0x02]
        ++ enableEvents p)
  else if p = .attiny85 then
    let freqWrites : List Event :=
      if fcpu = 16000000 then [Event.regWrite .TCCR1 0x88]
      else if fcpu = 8000000 then [Event.regWrite .TCCR1 0x89]
      else []
    (true,
      [Event.regAnd .GTCCR 0x81, Event.regWrite .OCR1C 0x7C,
       Event.regWrite .OCR1A 0x7C]
        ++ freqWrites
        ++ [Event.bitSet .TIMSK 6]
        ++ enableEvents p)
  else
    (false, [])

/-- `ISR(TIMER1_COMPA_vect)` from `Interrupts.h` (defined only when
`USE_ARDUINO_INTERRUPTS` and `__AVR__`): disable interrupts, call
`PulseSensorPlayground::OurThis->onSampleTime()`, re-enable interrupts.
`ourThis` is the value of the global `PulseSensorPlayground::OurThis`
read by the body. -/
def ISR_TIMER1_COMPA (p : Platform) (ourThis : Nat) : List Event :=
  disableEvents p ++ [Event.callback ourThis] ++ enableEvents p

/-- Whether the build defines the `ISR(TIMER1_COMPA_vect)` handler at all:
the definition sits under `#if USE_ARDUINO_INTERRUPTS` and
`#if defined(__AVR__)`, and the file contains exactly one such definition. -/
def isrBindingCount (useArduinoInterrupts : Bool) (p : Platform) : Nat :=
  if useArduinoInterrupts && p.isAVR then 1 else 0

/-- `boolean PulseSensorPlayground::UsingInterrupts = USE_ARDUINO_INTERRUPTS;`
— the one-time static initialisation of the flag from the build switch. -/
def initUsingInterrupts (useArduinoInterrupts : Bool) : Bool :=
  useArduinoInterrupts

/-- The subsystem's process-wide state: the mode flag and the callback
binding (`PulseSensorPlayground::OurThis`, identified by the target's
identity). -/
structure PlaygroundState where
  UsingInterrupts : Bool
  OurThis : Nat
deriving DecidableEq, Repr

/-- Modelled from the spec: `bindCallback(target)` — the assignment of
`PulseSensorPlayground::OurThis` lives in `PulseSensorPlayground.h`, which
is not part of the sources; per the spec it stores a back-reference to the
single sampling-engine instance that owns `onSampleTime`. -/
def bindCallback (s : PlaygroundState) (target : Nat) : PlaygroundState :=
  { s with OurThis := target }

/-- `PulseSensorPlaygroundSetupInterrupt` as a transformer of the
process-wide state: the source function assigns neither
`UsingInterrupts` nor `OurThis`, so the state passes through unchanged. -/
def setupInterruptStep (useArduinoInterrupts : Bool) (p : Platform)
    (fcpu : Nat) (s : PlaygroundState) :
    PlaygroundState × Bool × List Event :=
  (s, PulseSensorPlaygroundSetupInterrupt useArduinoInterrupts p fcpu)

/-- The ISR as a transformer of the process-wide state: its body reads
`OurThis` and assigns nothing, so the state passes through unchanged. -/
def isrStep (p : Platform) (s : PlaygroundState) :
    PlaygroundState × List Event :=
  (s, ISR_TIMER1_COMPA p s.OurThis)

/-- Last value written to register `r` by a trace (the value the hardware
register holds after the trace runs), `none` if the trace never plainly
writes `r`. -/
def writtenValue (tr : List Event) (r : Reg) : Option Nat :=
  tr.foldl
    (fun acc e =>
      match e with
      | Event.regWrite r2 v => if r2 = r then some v else acc
      | _ => acc)
    none

/-- Timer1 prescaler selected by clock-select bits CS12:CS11:CS10
(the low three bits of TCCR1B), per the ATmega328P datasheet;
`none` for "timer stopped" or external-clock settings. -/
def timer1Prescaler (cs : Nat) : Option Nat :=
  match cs with
  | 1 => some 1
  | 2 => some 8
  | 3 => some 64
  | 4 => some 256
  | 5 => some 1024
  | _ => none

/-- In CTC mode the counter runs 0..OCR1A, so one compare-match event
takes `prescaler * (OCR1A + 1)` CPU clock cycles. -/
def comparePeriodCycles (tccr1b ocr1a : Nat) : Option Nat :=
  (timer1Prescaler (tccr1b % 8)).map (fun pre => pre * (ocr1a + 1))

/-- Number of compare-match events (callback invocations) in one simulated
second: `F_CPU` clock cycles divided by the compare period in cycles. -/
def compareEventsPerSecond (fcpu tccr1b ocr1a : Nat) : Option Nat :=
  (comparePeriodCycles tccr1b ocr1a).map (fun cyc => fcpu / cyc)

/-- The Platform Capability Table as the spec describes it, keyed on the
(platform, clock frequency) pair: the ATmega328 family and the ATtiny85,
each at a 16MHz or 8MHz crystal. Stated from the spec's words, to be
compared with the behaviour of `PulseSensorPlaygroundSetupInterrupt`. -/
def specCapabilityTable (p : Platform) (fcpu : Nat) : Bool :=
  p.isSupported && (fcpu = 16000000 || fcpu = 8000000)

/-- Helper: on every supported platform branch, at every clock frequency,
`PulseSensorPlaygroundSetupInterrupt` returns true, never issues `cli()`,
performs at least one hardware action, and its last action is `sei()`. -/
theorem setup_supported_shape (p : Platform) (fcpu : Nat)
    (h : p.isSupported = true) :
    (PulseSensorPlaygroundSetupInterrupt true p fcpu).1 = true ∧
    Event.cli ∉ (PulseSensorPlaygroundSetupInterrupt true p fcpu).2 ∧
    (PulseSensorPlaygroundSetupInterrupt true p fcpu).2 ≠ [] ∧
    (PulseSensorPlaygroundSetupInterrupt true p fcpu).2.getLast?
      = some Event.sei := by
  cases p <;>
    by_cases h16 : fcpu = 16000000 <;> by_cases h8 : fcpu = 8000000 <;>
      simp_all [PulseSensorPlaygroundSetupInterrupt, Platform.isSupported,
        Platform.isATmega328Family, enableEvents]

/-- C1 (counterexample): the claim fails as stated. The pair
(ATmega328 family, 20MHz) is absent from the capability table the spec
describes, yet `PulseSensorPlaygroundSetupInterrupt` compiled with
`USE_ARDUINO_INTERRUPTS true` returns true and writes hardware registers
(the `#if F_CPU` chain has no `#else`, so only the frequency-dependent
writes are skipped). -/
theorem c1_absent_pair_counterexample :
    specCapabilityTable Platform.atmega328P 20000000 = false ∧
    (PulseSensorPlaygroundSetupInterrupt true Platform.atmega328P
      20000000).1 = true ∧
    (PulseSensorPlaygroundSetupInterrupt true Platform.atmega328P
      20000000).2 =
      [Event.regWrite .TCCR1A 0x00, Event.regWrite .TCCR1C 0x00,
       Event.regWrite .TIMSK1 0x02, Event.sei] := by decide

/-- C1 (amended): for every platform absent from the Platform Capability
Table (not the ATmega328 family and not the ATtiny85), at every clock
frequency, `configure(InterruptDriven)` returns false and performs zero
observable hardware register writes; a failed platform lookup never
touches hardware. -/
theorem c1_unknown_platform_false_no_writes (p : Platform) (fcpu : Nat)
    (h : p.isSupported = false) :
    PulseSensorPlaygroundSetupInterrupt true p fcpu = (false, []) := by
  cases p <;>
    simp_all [PulseSensorPlaygroundSetupInterrupt, Platform.isSupported,
      Platform.isATmega328Family]

/-- C1 witness: the unknown-platform theorem at a concrete input. -/
theorem c1_unknown_platform_witness :
    Platform.isSupported Platform.other = false ∧
    PulseSensorPlaygroundSetupInterrupt true Platform.other 16000000
      = (false, []) :=
  ⟨by decide,
   c1_unknown_platform_false_no_writes Platform.other 16000000 (by decide)⟩

/-- C2 (counterexample): the claim fails as stated. On the supported pair
(ATmega328P, 16MHz) the setup function never enters a critical section:
no `cli()` appears anywhere in its trace, although timer-register writes
occur — the first action is already a register write. -/
theorem c2_no_critical_section_counterexample :
    Platform.isSupported Platform.atmega328P = true ∧
    Event.cli ∉ (PulseSensorPlaygroundSetupInterrupt true
      Platform.atmega328P 16000000).2 ∧
    (PulseSensorPlaygroundSetupInterrupt true Platform.atmega328P
      16000000).2.head? = some (Event.regWrite .TCCR1A 0x00) := by decide

/-- C2 (amended): on a supported platform, `configure(InterruptDriven)`
returns true and performs its register writes WITHOUT entering a critical
section — no `cli()` is ever issued — and its final action is enabling
interrupt delivery (`sei()`). -/
theorem c2_supported_setup_writes_without_cli (p : Platform) (fcpu : Nat)
    (h : p.isSupported = true) :
    (PulseSensorPlaygroundSetupInterrupt true p fcpu).1 = true ∧
    Event.cli ∉ (PulseSensorPlaygroundSetupInterrupt true p fcpu).2 ∧
    (PulseSensorPlaygroundSetupInterrupt true p fcpu).2.getLast?
      = some Event.sei :=
  ⟨(setup_supported_shape p fcpu h).1, (setup_supported_shape p fcpu h).2.1,
   (setup_supported_shape p fcpu h).2.2.2⟩

/-- C2 witness: the amended theorem at the concrete input
(ATmega328P, 16MHz). -/
theorem c2_supported_setup_witness :
    Platform.isSupported Platform.atmega328P = true ∧
    ((PulseSensorPlaygroundSetupInterrupt true Platform.atmega328P
        16000000).1 = true ∧
      Event.cli ∉ (PulseSensorPlaygroundSetupInterrupt true
        Platform.atmega328P 16000000).2 ∧
      (PulseSensorPlaygroundSetupInterrupt true Platform.atmega328P
        16000000).2.getLast? = some Event.sei) :=
  ⟨by decide,
   c2_supported_setup_writes_without_cli Platform.atmega328P 16000000
     (by decide)⟩

/-- C3: on the ATmega328P at 16MHz, `configure(InterruptDriven)` writes
`TCCR1B = 0x0C` (CTC mode, prescaler 256) and `OCR1A = 0x007C` (count to
124); one compare-match event therefore takes 256 * 125 = 32000 CPU
cycles, which at 16MHz is exactly 2ms (32000 * 1000 = 16000000 * 2), so a
simulated second of 16000000 cycles holds exactly 500 compare-match
events (callback invocations). -/
theorem c3_atmega328p_16mhz_2ms_500_per_second :
    writtenValue (PulseSensorPlaygroundSetupInterrupt true
      Platform.atmega328P 16000000).2 .TCCR1B = some 0x0C ∧
    writtenValue (PulseSensorPlaygroundSetupInterrupt true
      Platform.atmega328P 16000000).2 .OCR1A = some 0x007C ∧
    comparePeriodCycles 0x0C 0x007C = some 32000 ∧
    32000 * 1000 = 16000000 * 2 ∧
    compareEventsPerSecond 16000000 0x0C 0x007C = some 500 ∧
    16000000 % 32000 = 0 := by decide

/-- C4: on the ATmega328P at 8MHz, `configure(InterruptDriven)` writes
`TCCR1B = 0x0B` (CTC mode, prescaler 64) and `OCR1A = 0x00F9` (count to
249) — a pair different from the 16MHz pair — yet one compare-match event
takes 64 * 250 = 16000 cycles, which at 8MHz is again exactly 2ms
(16000 * 1000 = 8000000 * 2), so a simulated second holds exactly 500
callback invocations. -/
theorem c4_atmega328p_8mhz_2ms_500_per_second :
    writtenValue (PulseSensorPlaygroundSetupInterrupt true
      Platform.atmega328P 8000000).2 .TCCR1B = some 0x0B ∧
    writtenValue (PulseSensorPlaygroundSetupInterrupt true
      Platform.atmega328P 8000000).2 .OCR1A = some 0x00F9 ∧
    writtenValue (PulseSensorPlaygroundSetupInterrupt true
        Platform.atmega328P 8000000).2 .TCCR1B
      ≠ writtenValue (PulseSensorPlaygroundSetupInterrupt true
        Platform.atmega328P 16000000).2 .TCCR1B ∧
    writtenValue (PulseSensorPlaygroundSetupInterrupt true
        Platform.atmega328P 8000000).2 .OCR1A
      ≠ writtenValue (PulseSensorPlaygroundSetupInterrupt true
        Platform.atmega328P 16000000).2 .OCR1A ∧
    comparePeriodCycles 0x0B 0x00F9 = some 16000 ∧
    16000 * 1000 = 8000000 * 2 ∧
    compareEventsPerSecond 8000000 0x0B 0x00F9 = some 500 ∧
    8000000 % 16000 = 0 := by decide

/-- C5: for every platform and every clock frequency,
`PulseSensorPlaygroundSetupInterrupt` compiled with
`USE_ARDUINO_INTERRUPTS false` returns true unconditionally and performs
zero hardware actions. -/
theorem c5_polled_true_no_writes (p : Platform) (fcpu : Nat) :
    PulseSensorPlaygroundSetupInterrupt false p fcpu = (true, []) := rfl

/-- C6: on each timer-compare firing in an interrupt-driven AVR build,
the ISR performs exactly three actions in order: disable interrupt
delivery (`cli`), invoke `onSampleTime()` on the exact bound target,
re-enable interrupt delivery (`sei`) — and nothing else; the bound target
is the one most recently stored by `bindCallback`. -/
theorem c6_isr_three_steps_exact_target (p : Platform)
    (s : PlaygroundState) (t : Nat) (h : p.isAVR = true) :
    (isrStep p (bindCallback s t)).2
      = [Event.cli, Event.callback t, Event.sei] := by
  cases p <;>
    simp_all [isrStep, ISR_TIMER1_COMPA, bindCallback, disableEvents,
      enableEvents, Platform.isAVR]

/-- C6 witness: the ISR theorem at a concrete platform, state and
target. -/
theorem c6_isr_three_steps_witness :
    Platform.isAVR Platform.atmega328P = true ∧
    (isrStep Platform.atmega328P
        (bindCallback { UsingInterrupts := true, OurThis := 0 } 7)).2
      = [Event.cli, Event.callback 7, Event.sei] :=
  ⟨by decide,
   c6_isr_three_steps_exact_target Platform.atmega328P
     { UsingInterrupts := true, OurThis := 0 } 7 (by decide)⟩

/-- C7: `PulseSensorPlayground::UsingInterrupts` is initialised exactly
once per build to the value of the build switch `USE_ARDUINO_INTERRUPTS`,
and no operation of this subsystem (`PulseSensorPlaygroundSetupInterrupt`,
the ISR, or `bindCallback`) ever mutates it. -/
theorem c7_usingInterrupts_set_once_never_mutated (u : Bool)
    (p : Platform) (fcpu : Nat) (s : PlaygroundState) (t : Nat) :
    initUsingInterrupts u = u ∧
    (setupInterruptStep u p fcpu s).1.UsingInterrupts
      = s.UsingInterrupts ∧
    (isrStep p s).1.UsingInterrupts = s.UsingInterrupts ∧
    (bindCallback s t).UsingInterrupts = s.UsingInterrupts :=
  ⟨rfl, rfl, rfl, rfl⟩

/-- C8: every build defines at most one `ISR(TIMER1_COMPA_vect)` binding;
it is defined exactly when the build is interrupt-driven AND targets an
AVR platform; and in every build with `USE_ARDUINO_INTERRUPTS false` no
ISR is defined at all, so invoking the adapter in a Polled build is
unreachable by construction. -/
theorem c8_isr_binding_at_most_one_only_interrupt_builds :
    ∀ (u : Bool) (p : Platform),
      isrBindingCount u p ≤ 1 ∧
      (isrBindingCount u p = 1 ↔ u = true ∧ p.isAVR = true) ∧
      isrBindingCount false p = 0 := by decide

/-- C9: on the `__arc__` architecture (Arduino 101), both critical-section
macros expand to nothing: entering and exiting the guard produces no
hardware action, so no interrupt delivery is suppressed there. -/
theorem c9_arc_guard_macros_expand_to_nothing :
    disableEvents Platform.arc = [] ∧ enableEvents Platform.arc = [] := by
  decide

/-- C10: on every supported platform branch, at every clock frequency,
`configure(InterruptDriven)` returns true and its final action is the
unconditional `sei()` of `ENABLE_PULSE_SENSOR_INTERRUPTS` — it never
issues a `cli()` whose prior state it could restore, so interrupt
delivery is globally enabled when the call returns regardless of the
state before the call. -/
theorem c10_supported_setup_ends_with_unconditional_sei (p : Platform)
    (fcpu : Nat) (h : p.isSupported = true) :
    (PulseSensorPlaygroundSetupInterrupt true p fcpu).1 = true ∧
    (PulseSensorPlaygroundSetupInterrupt true p fcpu).2.getLast?
      = some Event.sei ∧
    Event.cli ∉ (PulseSensorPlaygroundSetupInterrupt true p fcpu).2 :=
  ⟨(setup_supported_shape p fcpu h).1,
   (setup_supported_shape p fcpu h).2.2.2,
   (setup_supported_shape p fcpu h).2.1⟩

/-- C10 witness: the theorem at the concrete input (ATtiny85, 8MHz). -/
theorem c10_supported_setup_witness :
    Platform.isSupported Platform.attiny85 = true ∧
    ((PulseSensorPlaygroundSetupInterrupt true Platform.attiny85
        8000000).1 = true ∧
      (PulseSensorPlaygroundSetupInterrupt true Platform.attiny85
        8000000).2.getLast? = some Event.sei ∧
      Event.cli ∉ (PulseSensorPlaygroundSetupInterrupt true
        Platform.attiny85 8000000).2) :=
  ⟨by decide,
   c10_supported_setup_ends_with_unconditional_sei Platform.attiny85
     8000000 (by decide)⟩
